import Mathlib

/-!
Verification of the 2D kinematic character controller
(`src/character_controller.rs`, `src/main.rs`).

The embedding models `f32` scalars as real numbers (`ℝ`) for the geometric
code, and as an explicit IEEE-style tagged type over `ℚ` (`RFloat`) for the
code in `main.rs` whose control flow branches on NaN/infinity via `signum`.
Entities are `ℕ`; the spatial-query pipeline is an oracle function passed
explicitly, and every issued shape-cast query is recorded in a trace.
-/

namespace Platformer

/-- 2D vector of real scalars, modelling `avian2d::math::Vector` (`Vec2`). -/
abbrev Vec2 : Type := ℝ × ℝ

namespace Vec2

def zero : Vec2 := (0, 0)

def add (a b : Vec2) : Vec2 := (a.1 + b.1, a.2 + b.2)

def neg (a : Vec2) : Vec2 := (-a.1, -a.2)

/-- Scalar multiplication, modelling `Vec2 * f32`. -/
def smul (s : ℝ) (a : Vec2) : Vec2 := (s * a.1, s * a.2)

def dot (a b : Vec2) : ℝ := a.1 * b.1 + a.2 * b.2

/-- Models `Vec2::length`. -/
noncomputable def len (a : Vec2) : ℝ := Real.sqrt (a.1 * a.1 + a.2 * a.2)

/-- Models `Vec2::with_x`. -/
def withX (a : Vec2) (x : ℝ) : Vec2 := (x, a.2)

/-- Models `Vec2::with_y`. -/
def withY (a : Vec2) (y : ℝ) : Vec2 := (a.1, y)

/-- Constant `Vector::Y`, the world "up" direction. -/
def up : Vec2 := (0, 1)

end Vec2

/-!
## Grounding classifier (`update_grounded` in `character_controller.rs`)
-/

/-- The `avian2d` `Rotation` component: a rotation stored as `(cos, sin)`. -/
structure Rot2 where
  cos : ℝ
  sin : ℝ

/-- Models `Rotation * Vec2`: rotate a vector. -/
def Rot2.apply (r : Rot2) (v : Vec2) : Vec2 :=
  (r.cos * v.1 - r.sin * v.2, r.sin * v.1 + r.cos * v.2)

/-- The identity rotation (controller not rotated). -/
def Rot2.ident : Rot2 := ⟨1, 0⟩

/-- Models `a.angle_to(b).abs()` for nonzero `a`, `b`: the unsigned angle
between the vectors, `arccos (a·b / (‖a‖ ‖b‖)) ∈ [0, π]`. -/
noncomputable def angleToAbs (a b : Vec2) : ℝ :=
  Real.arccos (Vec2.dot a b / (Vec2.len a * Vec2.len b))

/-- One element of the `ShapeHits` buffer of the downward ground
`ShapeCaster`: the fields of `avian2d`'s shape-cast hit that
`update_grounded` consumes (`normal2` is the hit normal as reported by the
query library). -/
structure GroundHit where
  entity : ℕ
  distance : ℝ
  normal2 : Vec2

/-- The per-hit test inside `update_grounded`'s closure:
`(rotation * -hit.normal2).angle_to(Vector::Y).abs() <= angle.0` when a
`MaxSlopeAngle` is configured, and `true` otherwise. -/
def groundHitOk (rotation : Rot2) (max_slope_angle : Option ℝ) (hit : GroundHit) : Prop :=
  match max_slope_angle with
  | some angle => angleToAbs (rotation.apply (Vec2.neg hit.normal2)) Vec2.up ≤ angle
  | none => True

/-- System `update_grounded`: `hits.iter().any(...)` — the support flag is set iff
some hit passes the slope test. -/
def update_grounded (hits : List GroundHit) (rotation : Rot2)
    (max_slope_angle : Option ℝ) : Prop :=
  ∃ hit ∈ hits, groundHitOk rotation max_slope_angle hit

/-- The grounding predicate as the spec words it: "at least one hit's surface
normal, rotated into world space and inverted, forms an angle with up that is
≤ the maximum slope angle; if no maximum is configured, any hit counts as
ground" — i.e. inversion applied after the world rotation. -/
def specGrounded (hits : List GroundHit) (rotation : Rot2)
    (max_slope_angle : Option ℝ) : Prop :=
  ∃ hit ∈ hits,
    match max_slope_angle with
    | some angle => angleToAbs (Vec2.neg (rotation.apply hit.normal2)) Vec2.up ≤ angle
    | none => True

/-- A hit reported by the external shape-query interface for a surface whose
outward (geometric) surface normal is `n`. The library convention — the one
the classifier's `rotation * -hit.normal2` is written against, under which a
flat floor below the controller counts as ground — reports in `normal2` the
negation of the outward surface normal, so the classifier's inversion
recovers the outward normal. -/
def hitWithSurfaceNormal (n : Vec2) : GroundHit :=
  { entity := 0, distance := 0, normal2 := Vec2.neg n }

/-!
## Gravity & damping integrator and movement intent processor
(`apply_gravity`, `apply_damping`, `movement` in `character_controller.rs`)
-/

/-- The `MovementAction` events (`character_controller.rs`). -/
inductive MovementAction : Type
  | walk (direction : ℝ)
  | sprint (direction : ℝ)
  | jump

/-- System `apply_gravity`: `**velocity += gravity.0` — adds the gravity vector to
the velocity, unconditionally (the system does not read the `Grounded`
marker at all). -/
def apply_gravity (gravity : Vec2) (velocity : Vec2) : Vec2 :=
  Vec2.add velocity gravity

/-- System `apply_damping`: `velocity.x *= damping.0` — damps only the horizontal
component; the vertical component is untouched. -/
def apply_damping (damping : ℝ) (velocity : Vec2) : Vec2 :=
  (velocity.1 * damping, velocity.2)

/-- One `match event` arm of the `movement` system: `Walk`/`Sprint` set the
horizontal velocity to `direction * acceleration`; `Jump` sets the vertical
velocity to `jump_impulse` under the guard `is_grounded || !is_grounded`
(a tautology, exactly as written in the source). -/
def movementStep (acceleration jump_impulse : ℝ) (is_grounded : Bool)
    (velocity : Vec2) (event : MovementAction) : Vec2 :=
  match event with
  | .walk direction => (direction * acceleration, velocity.2)
  | .sprint direction => (direction * acceleration, velocity.2)
  | .jump =>
    if is_grounded || !is_grounded then (velocity.1, jump_impulse) else velocity

/-- The `movement` system: processes the tick's movement events in arrival
order over the controller's velocity. -/
def movement (acceleration jump_impulse : ℝ) (is_grounded : Bool)
    (events : List MovementAction) (velocity : Vec2) : Vec2 :=
  events.foldl (movementStep acceleration jump_impulse is_grounded) velocity

/-- One `Update`-schedule tick of the velocity-mutating systems, in the
`.chain()` order of `CharacterControllerPlugin::build`:
`apply_gravity`, then `movement`, then `apply_damping`. -/
def velocityTick (gravity : Vec2) (damping acceleration jump_impulse : ℝ)
    (is_grounded : Bool) (events : List MovementAction) (velocity : Vec2) : Vec2 :=
  apply_damping damping
    (movement acceleration jump_impulse is_grounded events
      (apply_gravity gravity velocity))

/-!
## Kinematic resolver (`collide_and_slide`, `kinematic_collision_response`
in `character_controller.rs`)
-/

/-- Constant `MAX_BOUNCES`. -/
def MAX_BOUNCES : ℕ := 5

/-- Constant `SKIN_WIDTH`. -/
noncomputable def SKIN_WIDTH : ℝ := 0.015

/-- Models `Dir2::new`: `Ok` with the normalized vector when the input can be
normalized, `Err` otherwise (in the real-number model exactly the zero
vector fails to normalize). -/
noncomputable def dir2New (v : Vec2) : Option Vec2 :=
  if v = Vec2.zero then none else some (Vec2.smul (1 / Vec2.len v) v)

/-- One shape cast issued through `SpatialQueryPipeline::cast_shape`: origin,
shape rotation (always `0.0` — the source's TODO), unit cast direction,
`ShapeCastConfig::max_distance`, and the entity-exclusion filter
(`SpatialQueryFilter::from_excluded_entities`). -/
structure ShapeCastQuery where
  origin : Vec2
  rotation : ℝ
  direction : Vec2
  maxDistance : ℝ
  excluded : List ℕ

/-- A shape-cast hit as returned to the resolver. -/
structure ResolverHit where
  entity : ℕ
  distance : ℝ
  normal : Vec2

/-- The spatial-query pipeline as an oracle from queries to the nearest hit,
if any (`cast_shape`); the controller's collider shape is fixed for the tick
and folded into the oracle. -/
def SpatialOracle : Type := ShapeCastQuery → Option ResolverHit

/-- The state mutated by `collide_and_slide`'s bounce loop:
`result_velocity`, `cast_direction`, `cast_distance`. -/
structure BounceState where
  result_velocity : Vec2
  cast_direction : Vec2
  cast_distance : ℝ

/-- One iteration of the `'bounces` loop. The source performs the shape cast
and binds the hit — `if let Some(hit) = spatial_query.cast_shape(...) {}` —
with an empty body, so the loop state is unchanged whether or not a hit is
found; the issued query is recorded in the trace. -/
noncomputable def bounceIter (oracle : SpatialOracle) (position : Vec2)
    (cast_filter : List ℕ) (acc : BounceState × List ShapeCastQuery) (_i : ℕ) :
    BounceState × List ShapeCastQuery :=
  let q : ShapeCastQuery :=
    { origin := position, rotation := 0, direction := acc.1.cast_direction,
      maxDistance := acc.1.cast_distance + SKIN_WIDTH, excluded := cast_filter }
  match oracle q with
  | some _hit => (acc.1, acc.2 ++ [q])
  | none => (acc.1, acc.2 ++ [q])

/-- Function `collide_and_slide`, instrumented with the list of queries it issues.
Mirrors the source: normalize the velocity into `cast_direction` (returning
`Vector::ZERO` before any query when `Dir2::new` fails), set
`cast_distance = velocity.length()` and `result_velocity = Vector::ZERO`,
run the bounce loop `MAX_BOUNCES` times, and return `result_velocity`. -/
noncomputable def collideAndSlideTraced (position velocity : Vec2)
    (oracle : SpatialOracle) (cast_filter : List ℕ) :
    Vec2 × List ShapeCastQuery :=
  match dir2New velocity with
  | none => (Vec2.zero, [])
  | some cast_direction =>
    let st0 : BounceState :=
      { result_velocity := Vec2.zero, cast_direction := cast_direction,
        cast_distance := Vec2.len velocity }
    let out := (List.range MAX_BOUNCES).foldl
      (bounceIter oracle position cast_filter) (st0, [])
    (out.1.result_velocity, out.2)

/-- Function `collide_and_slide`: the displacement the resolver returns. -/
noncomputable def collide_and_slide (position velocity : Vec2)
    (oracle : SpatialOracle) (cast_filter : List ℕ) : Vec2 :=
  (collideAndSlideTraced position velocity oracle cast_filter).1

/-- The per-controller state read and written by
`kinematic_collision_response`: the `Transform` translation (`x`,`y`; `z` is
untouched), the physics `Position`, the `LinearVelocity`, and the `Entity`
id (the collider is folded into the spatial oracle). -/
structure ControllerState where
  translation : Vec2
  position : Vec2
  velocity : Vec2
  entity : ℕ

/-- The body of `kinematic_collision_response` for one controller,
instrumented with the queries issued: build the exclusion filter from the
controller's own entity, resolve the horizontal part of
`velocity * delta_secs` and then the vertical part, and add the summed
motion to the transform translation. -/
noncomputable def kinematicResponseTraced (delta_secs : ℝ)
    (oracle : SpatialOracle) (c : ControllerState) :
    ControllerState × List ShapeCastQuery :=
  let cast_filter : List ℕ := [c.entity]
  let r1 := collideAndSlideTraced c.position
    (Vec2.smul delta_secs (Vec2.withY c.velocity 0)) oracle cast_filter
  let r2 := collideAndSlideTraced c.position
    (Vec2.smul delta_secs (Vec2.withX c.velocity 0)) oracle cast_filter
  ({ c with translation := Vec2.add c.translation (Vec2.add r1.1 r2.1) },
    r1.2 ++ r2.2)

/-- System `kinematic_collision_response` applied to the unique controller. -/
noncomputable def kinematic_collision_response (delta_secs : ℝ)
    (oracle : SpatialOracle) (c : ControllerState) : ControllerState :=
  (kinematicResponseTraced delta_secs oracle c).1

/-- The `kinematic_collision_response` system over the full controller
query: `controllers.single_mut().expect("There should always be exactly 1
player entity")` panics — modelled as `Except.error` carrying the panic
message — whenever the number of matching controllers is not exactly one;
the unique controller, when present, is processed for the tick. -/
noncomputable def kinematicResponseSystem (delta_secs : ℝ)
    (oracle : SpatialOracle) (controllers : List ControllerState) :
    Except String ControllerState :=
  match controllers with
  | [c] => .ok (kinematic_collision_response delta_secs oracle c)
  | _ => .error "There should always be exactly 1 player entity"

/-!
## IEEE-flavoured scalar model for `collision_response` (`main.rs`)

`collision_response` branches on `f32::signum`, which distinguishes NaN,
infinities and signed zero, so this part of the embedding uses an explicit
tagged float type with exact, decidable arithmetic over `ℚ` for the finite
values.
-/

/-- An `f32` value: NaN, the two infinities, negative zero, or a finite
value (`fin 0` is positive zero). -/
inductive RFloat : Type
  | nan
  | posInf
  | negInf
  | negZero
  | fin (x : ℚ)
  deriving DecidableEq

/-- Rust `f32::signum`: `1.0` for positive values, `+0.0` and `+∞`; `-1.0`
for negative values, `-0.0` and `-∞`; NaN for NaN. -/
def RFloat.signum : RFloat → RFloat
  | .nan => .nan
  | .posInf => .fin 1
  | .negInf => .fin (-1)
  | .negZero => .fin (-1)
  | .fin x => if x < 0 then .fin (-1) else .fin 1

/-- Models `f32::abs`. -/
def RFloat.abs : RFloat → RFloat
  | .nan => .nan
  | .posInf => .posInf
  | .negInf => .posInf
  | .negZero => .fin 0
  | .fin x => .fin |x|

/-- IEEE `==`, the comparison Rust float literal patterns match with:
NaN equals nothing, `-0.0 == 0.0`. -/
def RFloat.feq : RFloat → RFloat → Bool
  | .posInf, .posInf => true
  | .negInf, .negInf => true
  | .negZero, .negZero => true
  | .negZero, .fin y => y == 0
  | .fin x, .negZero => x == 0
  | .fin x, .fin y => x == y
  | _, _ => false

/-- IEEE multiplication of an `f32` by a finite `f32` (the `delta_secs`
factor): an infinity keeps or flips its sign for a nonzero factor and gives
NaN for a zero factor; the sign of a zero product is the xor of the operand
signs. -/
def RFloat.mulFin : RFloat → ℚ → RFloat
  | .nan, _ => .nan
  | .posInf, q => if 0 < q then .posInf else if q < 0 then .negInf else .nan
  | .negInf, q => if 0 < q then .negInf else if q < 0 then .posInf else .nan
  | .negZero, q => if q < 0 then .fin 0 else .negZero
  | .fin x, q =>
    if x * q = 0 then
      (if xor (decide (x < 0)) (decide (q < 0)) then .negZero else .fin 0)
    else .fin (x * q)

/-- Predicate for "compares `≥ 0.0`" in IEEE terms: true for `+∞`, both zeros, and
nonnegative finite values; false for NaN, `-∞` and negative values. -/
def RFloat.isNonneg : RFloat → Bool
  | .nan => false
  | .posInf => true
  | .negInf => false
  | .negZero => true
  | .fin x => decide (0 ≤ x)

/-- A shape cast issued by `collision_response` (`main.rs`): origin is the
transform translation, rotation `0.0` (TODO in source), direction `Dir2::Y`
or `Dir2::NEG_Y`, `max_distance = velocity.y.abs() * delta_secs`, and the
filter excluding the controller's own entity
(`SpatialQueryFilter::from_excluded_entities([entity])`). -/
structure CrQuery where
  origin : ℚ × ℚ
  rotation : ℚ
  direction : ℚ × ℚ
  maxDistance : RFloat
  excluded : List ℕ
  deriving DecidableEq

/-- The controller state `collision_response` reads and writes: vertical
velocity, transform translation, entity id. -/
structure CrController where
  velocity_y : RFloat
  translation : ℚ × ℚ
  entity : ℕ

/-- The query built inside `collision_response`'s loop body (`cast_origin`,
rotation `0.0`, the chosen `cast_direction` with vertical component `sy`,
`ShapeCastConfig` with `max_distance: velocity.y.abs() * delta_secs`, and
`cast_filter`). -/
def crQuery (delta_secs : ℚ) (c : CrController) (sy : ℚ) : CrQuery :=
  ⟨c.translation, 0, (0, sy), c.velocity_y.abs.mulFin delta_secs, [c.entity]⟩

/-- The cast-and-snap tail of `collision_response` once a cast direction is
chosen; `sy` is the vertical component of the unit cast direction, which in
this branch equals `velocity.y.signum()`. On a hit at distance `d` the
vertical velocity is snapped to `hit.distance * velocity.y.signum() /
delta_secs` (finite arithmetic); with no hit it is unchanged. -/
def crCast (delta_secs : ℚ) (oracle : CrQuery → Option ℚ) (c : CrController)
    (sy : ℚ) : Except String (RFloat × List CrQuery) :=
  match oracle (crQuery delta_secs c sy) with
  | some distance =>
    .ok (.fin (distance * sy / delta_secs), [crQuery delta_secs c sy])
  | none => .ok (c.velocity_y, [crQuery delta_secs c sy])

/-- System `collision_response` (`main.rs`) for one controller, returning either
the panic outcome or the (possibly snapped) vertical velocity together with
the issued queries. The `match velocity.y.signum()` arms are compared with
IEEE `==` in source order: `1.0` (`Dir2::Y`), `-1.0` (`Dir2::NEG_Y`), `0.0`
(`continue` — no query for a still controller), then the catch-all
`panic!("Velocity should never be NaN")`. -/
def collision_response (delta_secs : ℚ) (oracle : CrQuery → Option ℚ)
    (c : CrController) : Except String (RFloat × List CrQuery) :=
  if c.velocity_y.signum.feq (.fin 1) then
    crCast delta_secs oracle c 1
  else if c.velocity_y.signum.feq (.fin (-1)) then
    crCast delta_secs oracle c (-1)
  else if c.velocity_y.signum.feq (.fin 0) then
    .ok (c.velocity_y, [])
  else
    .error "Velocity should never be NaN"

/-- The queries issued by a `collision_response` outcome (none on panic). -/
def crQueries (r : Except String (RFloat × List CrQuery)) : List CrQuery :=
  match r with
  | .ok (_, qs) => qs
  | .error _ => []

end Platformer

open Platformer

lemma Rot2.apply_neg (r : Rot2) (v : Vec2) :
    r.apply (Vec2.neg v) = Vec2.neg (r.apply v) := by
  simp only [Rot2.apply, Vec2.neg, Prod.mk.injEq]
  constructor <;> ring

lemma Rot2.ident_apply (v : Vec2) : Rot2.ident.apply v = v := by
  simp [Rot2.ident, Rot2.apply]

lemma len_up : Vec2.len Vec2.up = 1 := by
  simp [Vec2.len, Vec2.up]

lemma bounceIter_eq (oracle : SpatialOracle) (position : Vec2)
    (cast_filter : List ℕ) (st : BounceState) (qs : List ShapeCastQuery)
    (i : ℕ) :
    bounceIter oracle position cast_filter (st, qs) i
      = (st, qs ++ [⟨position, 0, st.cast_direction,
          st.cast_distance + SKIN_WIDTH, cast_filter⟩]) := by
  cases h : oracle ⟨position, 0, st.cast_direction,
      st.cast_distance + SKIN_WIDTH, cast_filter⟩ <;>
    simp [bounceIter, h]

lemma foldl_bounceIter_fst (oracle : SpatialOracle) (position : Vec2)
    (cast_filter : List ℕ) (l : List ℕ) :
    ∀ (st : BounceState) (qs : List ShapeCastQuery),
      (l.foldl (bounceIter oracle position cast_filter) (st, qs)).1 = st := by
  induction l with
  | nil => intro st qs; rfl
  | cons i t ih =>
    intro st qs
    rw [List.foldl_cons, bounceIter_eq]
    exact ih st _

lemma foldl_bounceIter_len (oracle : SpatialOracle) (position : Vec2)
    (cast_filter : List ℕ) (l : List ℕ) :
    ∀ (st : BounceState) (qs : List ShapeCastQuery),
      (l.foldl (bounceIter oracle position cast_filter) (st, qs)).2.length
        = qs.length + l.length := by
  induction l with
  | nil => intro st qs; simp
  | cons i t ih =>
    intro st qs
    rw [List.foldl_cons, bounceIter_eq, ih]
    simp
    omega

lemma foldl_bounceIter_mem (oracle : SpatialOracle) (position : Vec2)
    (cast_filter : List ℕ) (l : List ℕ) :
    ∀ (st : BounceState) (qs : List ShapeCastQuery),
      ∀ q ∈ (l.foldl (bounceIter oracle position cast_filter) (st, qs)).2,
        q ∈ qs ∨ (q.origin = position ∧ q.rotation = 0
          ∧ q.direction = st.cast_direction
          ∧ q.maxDistance = st.cast_distance + SKIN_WIDTH
          ∧ q.excluded = cast_filter) := by
  induction l with
  | nil => intro st qs q hq; exact Or.inl hq
  | cons i t ih =>
    intro st qs q hq
    rw [List.foldl_cons, bounceIter_eq] at hq
    rcases ih st _ q hq with h | h
    · rcases List.mem_append.mp h with h1 | h1
      · exact Or.inl h1
      · rw [List.mem_singleton] at h1
        subst h1
        exact Or.inr ⟨rfl, rfl, rfl, rfl, rfl⟩
    · exact Or.inr h

lemma dir2New_zero : dir2New Vec2.zero = none := by
  simp [dir2New]

lemma collideAndSlideTraced_none (position velocity : Vec2)
    (oracle : SpatialOracle) (cast_filter : List ℕ)
    (hd : dir2New velocity = none) :
    collideAndSlideTraced position velocity oracle cast_filter
      = (Vec2.zero, []) := by
  unfold collideAndSlideTraced
  rw [hd]

lemma collide_and_slide_eq_zero (position velocity : Vec2)
    (oracle : SpatialOracle) (cast_filter : List ℕ) :
    collide_and_slide position velocity oracle cast_filter = Vec2.zero := by
  unfold collide_and_slide collideAndSlideTraced
  cases hd : dir2New velocity with
  | none => rfl
  | some d =>
    show (List.foldl (bounceIter oracle position cast_filter)
      (⟨Vec2.zero, d, Vec2.len velocity⟩, [])
      (List.range MAX_BOUNCES)).1.result_velocity = Vec2.zero
    rw [foldl_bounceIter_fst]

lemma collideAndSlideTraced_queries (position velocity : Vec2)
    (oracle : SpatialOracle) (cast_filter : List ℕ) :
    ∀ q ∈ (collideAndSlideTraced position velocity oracle cast_filter).2,
      q.maxDistance = Vec2.len velocity + SKIN_WIDTH
        ∧ q.excluded = cast_filter := by
  unfold collideAndSlideTraced
  cases hd : dir2New velocity with
  | none =>
    intro q hq
    exact absurd hq (List.not_mem_nil q)
  | some d =>
    intro q hq
    have hq' : q ∈ (List.foldl (bounceIter oracle position cast_filter)
        (⟨Vec2.zero, d, Vec2.len velocity⟩, [])
        (List.range MAX_BOUNCES)).2 := hq
    rcases foldl_bounceIter_mem oracle position cast_filter _ _ _ q hq' with h | h
    · exact absurd h (List.not_mem_nil q)
    · exact ⟨h.2.2.2.1, h.2.2.2.2⟩

/-- C5: with no movement intents, a tick adds gravity to the velocity first
(independently of the support flag) and then damps only the horizontal
component, yielding `((v + g).x * damping, (v + g).y)`. -/
theorem C5_gravity_then_damping (v g : Vec2) (damping acceleration jump_impulse : ℝ)
    (is_grounded : Bool) :
    velocityTick g damping acceleration jump_impulse is_grounded [] v
      = ((v.1 + g.1) * damping, v.2 + g.2) := by
  rfl

/-- C2: the grounding classifier is true iff some hit's surface normal,
world-rotated and inverted, is within the configured maximum slope angle of
"up" (with any hit counting when no maximum is configured — the `none` case
of the match); it is false on an empty hit set; a single hit whose outward
surface normal is exactly up is grounded under a 45° maximum, and a hit whose
outward surface normal is 60° from vertical is not. -/
theorem C2_grounding_classifier :
    (∀ hits rotation max_slope_angle,
        update_grounded hits rotation max_slope_angle ↔
          specGrounded hits rotation max_slope_angle)
    ∧ (∀ rotation max_slope_angle, ¬ update_grounded [] rotation max_slope_angle)
    ∧ update_grounded [hitWithSurfaceNormal Vec2.up] Rot2.ident (some (Real.pi / 4))
    ∧ ¬ update_grounded [hitWithSurfaceNormal (Real.sqrt 3 / 2, 1 / 2)] Rot2.ident
        (some (Real.pi / 4)) := by
  refine ⟨?_, ?_, ?_, ?_⟩
  · intro hits rotation ms
    unfold update_grounded specGrounded groundHitOk
    refine exists_congr fun hit => and_congr_right fun _ => ?_
    cases ms with
    | none => exact Iff.rfl
    | some a => rw [Rot2.apply_neg]
  · intro rotation ms h
    rcases h with ⟨hit, hmem, _⟩
    simp at hmem
  · refine ⟨hitWithSurfaceNormal Vec2.up, by simp, ?_⟩
    show angleToAbs (Rot2.ident.apply (Vec2.neg (Vec2.neg Vec2.up))) Vec2.up ≤ Real.pi / 4
    have h1 : Vec2.neg (Vec2.neg Vec2.up) = Vec2.up := by
      simp [Vec2.neg, Vec2.up]
    rw [h1, Rot2.ident_apply]
    have hdot : Vec2.dot Vec2.up Vec2.up = 1 := by
      norm_num [Vec2.dot, Vec2.up]
    unfold angleToAbs
    rw [hdot, len_up]
    norm_num [Real.arccos_one]
    positivity
  · intro h
    rcases h with ⟨hit, hmem, hok⟩
    rw [List.mem_singleton] at hmem
    subst hmem
    have hvec : Vec2.neg (hitWithSurfaceNormal (Real.sqrt 3 / 2, 1 / 2)).normal2
        = ((Real.sqrt 3 / 2, 1 / 2) : Vec2) := by
      simp [hitWithSurfaceNormal, Vec2.neg]
    have hlen : Vec2.len ((Real.sqrt 3 / 2, 1 / 2) : Vec2) = 1 := by
      unfold Vec2.len
      have h3 : Real.sqrt 3 * Real.sqrt 3 = 3 := Real.mul_self_sqrt (by norm_num)
      have hsum : (Real.sqrt 3 / 2 * (Real.sqrt 3 / 2) + 1 / 2 * (1 / 2) : ℝ) = 1 := by
        nlinarith [h3]
      rw [show ((Real.sqrt 3 / 2, 1 / 2) : Vec2).1 = Real.sqrt 3 / 2 from rfl,
        show ((Real.sqrt 3 / 2, 1 / 2) : Vec2).2 = (1 / 2 : ℝ) from rfl, hsum,
        Real.sqrt_one]
    have hdot : Vec2.dot ((Real.sqrt 3 / 2, 1 / 2) : Vec2) Vec2.up = 1 / 2 := by
      norm_num [Vec2.dot, Vec2.up]
    have harc : angleToAbs ((Real.sqrt 3 / 2, 1 / 2) : Vec2) Vec2.up = Real.pi / 3 := by
      unfold angleToAbs
      rw [hdot, hlen, len_up, one_mul, div_one, ← Real.cos_pi_div_three]
      exact Real.arccos_cos (by positivity) (by linarith [Real.pi_pos])
    unfold groundHitOk at hok
    rw [hvec, Rot2.ident_apply, harc] at hok
    linarith [Real.pi_pos]

/-- C6: processing a `Jump` intent sets the vertical velocity to the jump
impulse for every value of the support flag, and leaves the horizontal
velocity unchanged. -/
theorem C6_jump_unconditional (acceleration jump_impulse : ℝ)
    (is_grounded : Bool) (v : Vec2) :
    movement acceleration jump_impulse is_grounded [MovementAction.jump] v
      = (v.1, jump_impulse) := by
  cases is_grounded <;> rfl

lemma kinematicResponseTraced_queries (delta_secs : ℝ) (oracle : SpatialOracle)
    (c : ControllerState) :
    ∀ q ∈ (kinematicResponseTraced delta_secs oracle c).2,
      0 ≤ q.maxDistance ∧ c.entity ∈ q.excluded := by
  intro q hq
  have hq' : q ∈ (collideAndSlideTraced c.position
        (Vec2.smul delta_secs (Vec2.withY c.velocity 0)) oracle [c.entity]).2
      ++ (collideAndSlideTraced c.position
        (Vec2.smul delta_secs (Vec2.withX c.velocity 0)) oracle [c.entity]).2 := hq
  have hskin : (0 : ℝ) ≤ SKIN_WIDTH := by norm_num [SKIN_WIDTH]
  rcases List.mem_append.mp hq' with h | h <;>
    rcases collideAndSlideTraced_queries _ _ _ _ q h with ⟨hmax, hexc⟩
  · refine ⟨?_, ?_⟩
    · rw [hmax]
      have h1 : 0 ≤ Vec2.len (Vec2.smul delta_secs (Vec2.withY c.velocity 0)) :=
        Real.sqrt_nonneg _
      linarith
    · rw [hexc]
      exact List.mem_singleton_self _
  · refine ⟨?_, ?_⟩
    · rw [hmax]
      have h1 : 0 ≤ Vec2.len (Vec2.smul delta_secs (Vec2.withX c.velocity 0)) :=
        Real.sqrt_nonneg _
      linarith
    · rw [hexc]
      exact List.mem_singleton_self _

/-- C1 (failing input for the stated claim): with no blocking geometry at
all — the oracle reports no hit for every query, so every shape cast in the
bounce loop returns no hit — the resolver applied to the desired
displacement `(1, 0)` returns `(0, 0)`, which differs from the input
displacement. -/
theorem C1_unobstructed_displacement_lost :
    collide_and_slide Vec2.zero ((1 : ℝ), (0 : ℝ)) (fun _ => none) [0] = Vec2.zero
    ∧ Vec2.zero ≠ (((1 : ℝ), (0 : ℝ)) : Vec2) := by
  refine ⟨collide_and_slide_eq_zero _ _ _ _, ?_⟩
  simp [Vec2.zero, Prod.ext_iff]

/-- C3: the bounce loop always terminates within `MAX_BOUNCES = 5`
iterations (the trace records exactly one shape-cast query per executed
iteration), and the resolver returns the displacement accumulated in
`result_velocity` by the loop when the bounce budget is exhausted, rather
than failing. -/
theorem C3_bounce_budget (position velocity : Vec2) (oracle : SpatialOracle)
    (cast_filter : List ℕ) :
    (collideAndSlideTraced position velocity oracle cast_filter).2.length
        ≤ MAX_BOUNCES
    ∧ MAX_BOUNCES = 5
    ∧ (∀ d, dir2New velocity = some d →
        collide_and_slide position velocity oracle cast_filter
          = (List.foldl (bounceIter oracle position cast_filter)
              (⟨Vec2.zero, d, Vec2.len velocity⟩, [])
              (List.range MAX_BOUNCES)).1.result_velocity) := by
  refine ⟨?_, rfl, ?_⟩
  · unfold collideAndSlideTraced
    cases hd : dir2New velocity with
    | none => simp
    | some d =>
      show (List.foldl (bounceIter oracle position cast_filter)
          (⟨Vec2.zero, d, Vec2.len velocity⟩, [])
          (List.range MAX_BOUNCES)).2.length ≤ MAX_BOUNCES
      rw [foldl_bounceIter_len]
      simp
  · intro d hd
    unfold collide_and_slide collideAndSlideTraced
    rw [hd]

/-- C3 witness: the bound and the accumulated-result equation evaluated at a
concrete unobstructed rightward displacement. -/
theorem C3_bounce_budget_witness :
    (collideAndSlideTraced Vec2.zero ((1 : ℝ), (0 : ℝ)) (fun _ => none) [0]).2.length
        ≤ MAX_BOUNCES
    ∧ MAX_BOUNCES = 5
    ∧ collide_and_slide Vec2.zero ((1 : ℝ), (0 : ℝ)) (fun _ => none) [0]
        = (List.foldl (bounceIter (fun _ => none) Vec2.zero [0])
            (⟨Vec2.zero, ((1 : ℝ), (0 : ℝ)), Vec2.len ((1 : ℝ), (0 : ℝ))⟩, [])
            (List.range MAX_BOUNCES)).1.result_velocity := by
  obtain ⟨h1, h2, h3⟩ :=
    C3_bounce_budget Vec2.zero ((1 : ℝ), (0 : ℝ)) (fun _ => none) [0]
  exact ⟨h1, h2, h3 ((1 : ℝ), (0 : ℝ))
    (by simp [dir2New, Vec2.zero, Vec2.smul, Vec2.len, Prod.ext_iff])⟩

/-- C4: `collide_and_slide` returns the zero vector for every input — its
bounce-loop body never updates `result_velocity`, `cast_direction` or
`cast_distance` — and consequently `kinematic_collision_response` leaves the
controller's transform translation unchanged on every tick. -/
theorem C4_resolver_always_zero :
    (∀ position velocity oracle cast_filter,
        collide_and_slide position velocity oracle cast_filter = Vec2.zero)
    ∧ (∀ delta_secs oracle c,
        (kinematic_collision_response delta_secs oracle c).translation
          = c.translation) := by
  refine ⟨collide_and_slide_eq_zero, ?_⟩
  intro dt oracle c
  show Vec2.add c.translation (Vec2.add
      (collide_and_slide c.position (Vec2.smul dt (Vec2.withY c.velocity 0))
        oracle [c.entity])
      (collide_and_slide c.position (Vec2.smul dt (Vec2.withX c.velocity 0))
        oracle [c.entity]))
    = c.translation
  rw [collide_and_slide_eq_zero, collide_and_slide_eq_zero]
  simp [Vec2.add, Vec2.zero]

/-- C8: a zero-length desired displacement makes the resolver return zero
immediately with no shape-cast query issued (and no error), and running the
resolver again on the (zero) result again returns zero with no queries. -/
theorem C8_zero_displacement_short_circuit (position : Vec2)
    (oracle : SpatialOracle) (cast_filter : List ℕ) :
    collideAndSlideTraced position Vec2.zero oracle cast_filter = (Vec2.zero, [])
    ∧ collideAndSlideTraced position
        (collide_and_slide position Vec2.zero oracle cast_filter) oracle cast_filter
      = (Vec2.zero, []) := by
  have h0 := collideAndSlideTraced_none position Vec2.zero oracle cast_filter
    dir2New_zero
  refine ⟨h0, ?_⟩
  rw [collide_and_slide_eq_zero]
  exact h0

/-- C10 counterexample to the claim as stated: with no controller entity
present, the multiplicity failure is produced by the per-tick
`kinematic_collision_response` system itself (the modelled
`single_mut().expect(...)` panic), i.e. it is a per-tick failure, not a
distinct fatal startup-configuration report. -/
theorem C10_counterexample :
    kinematicResponseSystem 1 (fun _ => none) []
      = Except.error "There should always be exactly 1 player entity" := rfl

/-- C10 (amended): whenever the number of controller entities is not exactly
one — absent or duplicated — the per-tick kinematic collision response
panics with "There should always be exactly 1 player entity"; with exactly
one controller it proceeds, assuming that unique controller. -/
theorem C10_singleton_expectation (delta_secs : ℝ) (oracle : SpatialOracle)
    (controllers : List ControllerState) :
    (kinematicResponseSystem delta_secs oracle controllers
        = Except.error "There should always be exactly 1 player entity"
      ↔ controllers.length ≠ 1)
    ∧ (∀ c, kinematicResponseSystem delta_secs oracle [c]
        = Except.ok (kinematic_collision_response delta_secs oracle c)) := by
  refine ⟨?_, fun c => rfl⟩
  rcases controllers with _ | ⟨c1, _ | ⟨c2, t⟩⟩
  · exact iff_of_true rfl (by simp)
  · exact iff_of_false (fun h => Except.noConfusion h) (by simp)
  · refine iff_of_true rfl ?_
    simp only [List.length_cons]
    omega

lemma crCast_queries_eq (dt : ℚ) (oracle : CrQuery → Option ℚ)
    (c : CrController) (sy : ℚ) :
    crQueries (crCast dt oracle c sy) = [crQuery dt c sy] := by
  unfold crCast
  cases oracle (crQuery dt c sy) <;> rfl

lemma absMulFin_isNonneg (dt : ℚ) (hdt : 0 < dt) (v : RFloat)
    (hv : v ≠ RFloat.nan) :
    (v.abs.mulFin dt).isNonneg = true := by
  cases v with
  | nan => exact absurd rfl hv
  | posInf => simp [RFloat.abs, RFloat.mulFin, hdt, RFloat.isNonneg]
  | negInf => simp [RFloat.abs, RFloat.mulFin, hdt, RFloat.isNonneg]
  | negZero => simp [RFloat.abs, RFloat.mulFin, RFloat.isNonneg, hdt.asymm]
  | fin x =>
    by_cases h0 : |x| * dt = 0
    · simp [RFloat.abs, RFloat.mulFin, RFloat.isNonneg, h0, hdt.asymm,
        not_lt.mpr (abs_nonneg x)]
    · simp only [RFloat.abs, RFloat.mulFin, RFloat.isNonneg, if_neg h0]
      exact decide_eq_true (mul_nonneg (abs_nonneg x) hdt.le)

lemma collision_response_queries (dt : ℚ) (hdt : 0 < dt)
    (oracle : CrQuery → Option ℚ) (c : CrController) :
    ∀ q ∈ crQueries (collision_response dt oracle c),
      q.maxDistance.isNonneg = true ∧ c.entity ∈ q.excluded := by
  have hcast : ∀ sy : ℚ, c.velocity_y ≠ RFloat.nan →
      ∀ q ∈ crQueries (crCast dt oracle c sy),
        q.maxDistance.isNonneg = true ∧ c.entity ∈ q.excluded := by
    intro sy hv q hq
    rw [crCast_queries_eq, List.mem_singleton] at hq
    subst hq
    exact ⟨absMulFin_isNonneg dt hdt _ hv, List.mem_singleton_self _⟩
  unfold collision_response
  by_cases h1 : c.velocity_y.signum.feq (.fin 1) = true
  · rw [if_pos h1]
    refine hcast 1 fun hnan => ?_
    rw [hnan] at h1
    exact absurd h1 (by decide)
  · rw [if_neg h1]
    by_cases h2 : c.velocity_y.signum.feq (.fin (-1)) = true
    · rw [if_pos h2]
      refine hcast (-1) fun hnan => ?_
      rw [hnan] at h2
      exact absurd h2 (by decide)
    · rw [if_neg h2]
      by_cases h3 : c.velocity_y.signum.feq (.fin 0) = true
      · rw [if_pos h3]
        intro q hq
        exact absurd hq (List.not_mem_nil q)
      · rw [if_neg h3]
        intro q hq
        exact absurd hq (List.not_mem_nil q)

/-- C7 counterexample to the claim as stated: a NaN vertical velocity
reaches the per-tick collision-response step and panics right there (the
`panic!("Velocity should never be NaN")` arm of the `signum` match), so the
step is not panic-free on non-finite velocity input. -/
theorem C7_counterexample :
    collision_response 1 (fun _ => none) ⟨RFloat.nan, (0, 0), 0⟩
      = Except.error "Velocity should never be NaN" := rfl

/-- C7 (amended): the collision-response step panics on a NaN vertical
velocity instead of rejecting it at the velocity-computation boundary, and
an infinite vertical velocity is not rejected either — it proceeds to the
shape-cast query, which is issued with an infinite maximum cast distance. -/
theorem C7_nonfinite_velocity (dt : ℚ) (oracle : CrQuery → Option ℚ)
    (translation : ℚ × ℚ) (entity : ℕ) (hdt : 0 < dt) :
    collision_response dt oracle ⟨RFloat.nan, translation, entity⟩
        = Except.error "Velocity should never be NaN"
    ∧ (crQueries (collision_response dt oracle
          ⟨RFloat.posInf, translation, entity⟩)).map CrQuery.maxDistance
        = [RFloat.posInf] := by
  refine ⟨rfl, ?_⟩
  have hbranch : collision_response dt oracle ⟨RFloat.posInf, translation, entity⟩
      = crCast dt oracle ⟨RFloat.posInf, translation, entity⟩ 1 := rfl
  rw [hbranch, crCast_queries_eq]
  simp [crQuery, RFloat.abs, RFloat.mulFin, hdt]

/-- C7 witness: the amended behaviour at a concrete timestep and oracle. -/
theorem C7_nonfinite_velocity_witness :
    (0 : ℚ) < 1
    ∧ (collision_response 1 (fun _ => none) ⟨RFloat.nan, ((0 : ℚ), (0 : ℚ)), 0⟩
          = Except.error "Velocity should never be NaN"
      ∧ (crQueries (collision_response 1 (fun _ => none)
            ⟨RFloat.posInf, ((0 : ℚ), (0 : ℚ)), 0⟩)).map CrQuery.maxDistance
          = [RFloat.posInf]) :=
  ⟨by decide, C7_nonfinite_velocity 1 (fun _ => none) (0, 0) 0 (by decide)⟩

/-- C9: every shape-cast query issued by `kinematic_collision_response`'s
two `collide_and_slide` passes and by `collision_response` carries a
maximum cast distance that is ≥ 0 (IEEE comparison on the float-modelled
path) and an exclusion filter containing the casting controller's own
entity. -/
theorem C9_query_invariants (delta_secs : ℝ) (oracle : SpatialOracle)
    (c : ControllerState) (dt : ℚ) (oracle2 : CrQuery → Option ℚ)
    (c2 : CrController) (hdt : 0 < dt) :
    List.Forall (fun q => 0 ≤ q.maxDistance ∧ c.entity ∈ q.excluded)
      (kinematicResponseTraced delta_secs oracle c).2
    ∧ List.Forall
        (fun q => q.maxDistance.isNonneg = true ∧ c2.entity ∈ q.excluded)
        (crQueries (collision_response dt oracle2 c2)) :=
  ⟨List.forall_iff_forall_mem.mpr (kinematicResponseTraced_queries delta_secs oracle c),
    List.forall_iff_forall_mem.mpr (collision_response_queries dt hdt oracle2 c2)⟩

/-- C9 witness: the query invariants at a concrete tick — a controller with
entity id 3 on the resolver path, and a falling controller with entity id 4
on the `collision_response` path. -/
theorem C9_query_invariants_witness :
    (0 : ℚ) < 1
    ∧ (List.Forall (fun q => 0 ≤ q.maxDistance ∧ 3 ∈ q.excluded)
          (kinematicResponseTraced 1 (fun _ => none)
            ⟨Vec2.zero, Vec2.zero, Vec2.zero, 3⟩).2
      ∧ List.Forall
          (fun q => q.maxDistance.isNonneg = true ∧ 4 ∈ q.excluded)
          (crQueries (collision_response 1 (fun _ => none)
            ⟨RFloat.fin (-50), ((0 : ℚ), (0 : ℚ)), 4⟩))) :=
  ⟨by decide, C9_query_invariants 1 (fun _ => none)
    ⟨Vec2.zero, Vec2.zero, Vec2.zero, 3⟩ 1 (fun _ => none)
    ⟨RFloat.fin (-50), (0, 0), 4⟩ (by decide)⟩
